import Mathlib

/-!
Verification of the kube-secret-sync-operator reconciliation engine
(source: src/main.py).

The Python operator is embedded shallowly:

* A Kubernetes `V1Secret` becomes the structure `Secret`; its string-keyed
  metadata maps become association lists, and a possibly-absent annotations
  mapping becomes an `Option` (Python: `secret.metadata.annotations or {}`).
* The API server is an environment `Env` recording, per `(namespace, name)`
  key, what a read returns and whether a create/delete call raises an
  `ApiException` (and with which HTTP status).  A missing entry in
  `Env.reads` means the read raises 404 (not found), exactly as
  `read_namespaced_secret` does for a missing secret.
* Each operation of `main.py` becomes a function from an `Env` to a trace of
  issued writes (`Action`), emitted Kubernetes events (`Event`) and the
  counters the Python code keeps.  All `try/except ApiException` blocks of
  the source are mirrored branch by branch; since the source catches every
  `ApiException` it can see, the top-level functions always return
  `Except.ok` — the `Except` layer records that no error ever propagates to
  the kopf framework.
* Wall-clock time (`str(int(time.time()))`) becomes a parameter `now : Nat`
  rendered with `toString`.

The constants `SYNC_SOURCE_ANNOT` and `SYNC_TIMESTAMP_ANNOT` embed the
source's `SYNC_SOURCE_ANNOTATION` and `SYNC_TIMESTAMP_ANNOTATION`.
-/

namespace KSS

def SYNC_SOURCE_ANNOT : String := "kss-operator/source-namespace"

def SYNC_TIMESTAMP_ANNOT : String := "kss-operator/synced-at"

def SYNC_LABEL : String := "kss-operator/sync"

/-- A Kubernetes Secret as the operator sees it: payload (`data`, `type`)
and the metadata maps it reads and writes. -/
structure Secret where
  data : List (String × String)
  type : String
  labels : List (String × String)
  annotations : Option (List (String × String))
deriving DecidableEq

/-- Predicate `is_synced_secret` from src/main.py lines 45-48:
`annotations = secret.metadata.annotations or {}` followed by
`SYNC_SOURCE_ANNOTATION in annotations`. -/
def is_synced_secret (s : Secret) : Bool :=
  ((s.annotations.getD []).lookup SYNC_SOURCE_ANNOT).isSome

/-- Result of `read_namespaced_secret`: either the secret, or an
`ApiException` with an HTTP status (404 = not found). -/
inductive ReadResult where
  | found (s : Secret)
  | apiError (status : Nat)
deriving DecidableEq

/-- The cluster as seen through the API: the namespace list (`none` means
`list_namespace` raises), and per `(namespace, secretName)` key the outcome
of reads and the failure status (if any) of create and delete calls. -/
structure Env where
  listNamespaces : Option (List String)
  reads : List ((String × String) × ReadResult)
  createFails : List ((String × String) × Nat)
  deleteFails : List ((String × String) × Nat)
deriving DecidableEq

def Env.readSecret (env : Env) (ns name : String) : ReadResult :=
  (env.reads.lookup (ns, name)).getD (.apiError 404)

def Env.createSecret (env : Env) (ns name : String) : Option Nat :=
  env.createFails.lookup (ns, name)

def Env.deleteSecret (env : Env) (ns name : String) : Option Nat :=
  env.deleteFails.lookup (ns, name)

/-- A write issued against the API server. -/
inductive Action where
  | delete (ns name : String)
  | create (ns : String) (s : Secret)
deriving DecidableEq

/-- Kubernetes events emitted via `create_event` (reason, namespace, name). -/
inductive Event where
  | syncSkipped (ns name : String)
  | secretSynced (ns name : String)
  | syncFailed (ns name : String)
  | syncedSecretDeleted (ns name : String)
  | secretReconciled (ns name : String)
deriving DecidableEq

/-- What one run of `sync_secret` / `reconcile_secret` produces: the issued
writes in order, the emitted events, and the source's counters. -/
structure SyncOutcome where
  actions : List Action
  events : List Event
  success_count : Nat
  fail_count : Nat
deriving DecidableEq

def SyncOutcome.append (a b : SyncOutcome) : SyncOutcome :=
  ⟨a.actions ++ b.actions, a.events ++ b.events,
   a.success_count + b.success_count, a.fail_count + b.fail_count⟩

/-- Outcome of `delete_synced_secrets`: issued writes, events, and the
source's `deleted_count`. -/
structure GcOutcome where
  actions : List Action
  events : List Event
  deleted_count : Nat
deriving DecidableEq

def GcOutcome.append (a b : GcOutcome) : GcOutcome :=
  ⟨a.actions ++ b.actions, a.events ++ b.events,
   a.deleted_count + b.deleted_count⟩

/-- The replica built by `sync_secret` (src/main.py lines 106-119) and by
`reconcile_secret` (lines 326-337, 355-366): payload copied from the origin,
labels exactly the marker entry, annotations exactly source-namespace and
synced-at. -/
def desiredSecret (srcNs : String) (origin : Secret) (now : Nat) : Secret :=
  ⟨origin.data, origin.type,
   [(SYNC_LABEL, "synced")],
   some [(SYNC_SOURCE_ANNOT, srcNs), (SYNC_TIMESTAMP_ANNOT, toString now)]⟩

/-- The create block of `sync_secret` (src/main.py lines 104-141): the
create call is issued; if it raises, `fail_count` is incremented and a
`SyncFailed` warning event is emitted (this branch does not inspect the
status — a 409 conflict takes it too); otherwise `success_count` is
incremented and `SecretSynced` is emitted.  `pre` carries a delete issued
just before the create. -/
def createBlock (name srcNs : String) (data : Secret) (env : Env) (now : Nat)
    (t : String) (pre : List Action) : SyncOutcome :=
  match env.createSecret t name with
  | some _ =>
      ⟨pre ++ [.create t (desiredSecret srcNs data now)], [.syncFailed t name], 0, 1⟩
  | none =>
      ⟨pre ++ [.create t (desiredSecret srcNs data now)], [.secretSynced t name], 1, 0⟩

/-- One iteration of the fan-out loop of `sync_secret`
(src/main.py lines 68-141) for a target namespace `t ≠ srcNs`:
read the secret; if found and synced, delete it and fall through to the
create block (a 404 from the delete also falls through, any other delete
failure counts as a failure and moves on); if found and not synced, emit a
`SyncSkipped` warning and move on; if the read raises 404, go to the create
block; any other read failure counts as a failure and moves on. -/
def syncStep (name srcNs : String) (data : Secret) (env : Env) (now : Nat)
    (t : String) : SyncOutcome :=
  match env.readSecret t name with
  | .found s =>
      if is_synced_secret s then
        match env.deleteSecret t name with
        | some st =>
            if st = 404 then
              createBlock name srcNs data env now t [.delete t name]
            else
              ⟨[.delete t name], [], 0, 1⟩
        | none => createBlock name srcNs data env now t [.delete t name]
      else
        ⟨[], [.syncSkipped t name], 0, 0⟩
  | .apiError st =>
      if st = 404 then
        createBlock name srcNs data env now t []
      else
        ⟨[], [], 0, 1⟩

def syncLoop (name srcNs : String) (data : Secret) (env : Env) (now : Nat) :
    List String → SyncOutcome
  | [] => ⟨[], [], 0, 0⟩
  | t :: rest =>
      if t = srcNs then syncLoop name srcNs data env now rest
      else (syncStep name srcNs data env now t).append
            (syncLoop name srcNs data env now rest)

/-- Operation `sync_secret` from src/main.py lines 50-146.  If `list_namespace`
raises, the failure is logged and the function returns (`.ok` with an empty
trace — nothing is raised to the caller); otherwise the fan-out loop runs
over every listed namespace other than the origin's. -/
def sync_secret (name srcNs : String) (data : Secret) (env : Env) (now : Nat) :
    Except Nat SyncOutcome :=
  match env.listNamespaces with
  | none => .ok ⟨[], [], 0, 0⟩
  | some nss => .ok (syncLoop name srcNs data env now nss)

/-- One iteration of the loop of `delete_synced_secrets`
(src/main.py lines 165-195) for a target namespace `t ≠ srcNs`:
read the secret; if found and synced, delete it (on a clean delete
`deleted_count` is incremented and a `SyncedSecretDeleted` event emitted; a
raising delete is caught and skipped over); if found and unsynced, or the
read raises (404 or otherwise), nothing is written. -/
def gcStep (name : String) (env : Env) (t : String) : GcOutcome :=
  match env.readSecret t name with
  | .found s =>
      if is_synced_secret s then
        match env.deleteSecret t name with
        | some _ => ⟨[.delete t name], [], 0⟩
        | none => ⟨[.delete t name], [.syncedSecretDeleted t name], 1⟩
      else
        ⟨[], [], 0⟩
  | .apiError _ => ⟨[], [], 0⟩

def gcLoop (name srcNs : String) (env : Env) : List String → GcOutcome
  | [] => ⟨[], [], 0⟩
  | t :: rest =>
      if t = srcNs then gcLoop name srcNs env rest
      else (gcStep name env t).append (gcLoop name srcNs env rest)

/-- Operation `delete_synced_secrets` from src/main.py lines 148-197.  A failing
`list_namespace` is logged and the function returns normally. -/
def delete_synced_secrets (name srcNs : String) (env : Env) :
    Except Nat GcOutcome :=
  match env.listNamespaces with
  | none => .ok ⟨[], [], 0⟩
  | some nss => .ok (gcLoop name srcNs env nss)

/-- The 404 branch of the inner `except` of `reconcile_secret`
(src/main.py lines 347-373): the secret is missing, so a create is issued
from inside the exception handler.  If this create itself raises, the
exception escapes the inner `try` and aborts the whole per-namespace loop
(caught only by the outer handler), hence the `Bool` abort flag. -/
def reconcileCreateMissing (name srcNs : String) (src : Secret) (env : Env)
    (now : Nat) (t : String) (pre : List Action) : SyncOutcome × Bool :=
  match env.createSecret t name with
  | some _ => (⟨pre ++ [.create t (desiredSecret srcNs src now)], [], 0, 0⟩, true)
  | none =>
      (⟨pre ++ [.create t (desiredSecret srcNs src now)],
        [.secretReconciled t name], 1, 0⟩, false)

/-- One iteration of the reconciliation loop of `reconcile_secret`
(src/main.py lines 305-378) for a target namespace `t ≠ srcNs`:
read the secret; if found, synced, and `data` or `type` differs from the
source, delete and recreate (a 404 from the delete or the create re-enters
the missing-secret branch; other failures are logged and the loop moves
on); if found and synced with equal `data` and `type`, or found and
unsynced, nothing happens; if the read raises 404, create the missing
replica; other read failures are logged. -/
def reconcileStep (name srcNs : String) (src : Secret) (env : Env) (now : Nat)
    (t : String) : SyncOutcome × Bool :=
  match env.readSecret t name with
  | .found s =>
      if is_synced_secret s then
        if s.data ≠ src.data ∨ s.type ≠ src.type then
          match env.deleteSecret t name with
          | some st =>
              if st = 404 then
                reconcileCreateMissing name srcNs src env now t [.delete t name]
              else
                (⟨[.delete t name], [], 0, 0⟩, false)
          | none =>
              match env.createSecret t name with
              | some st =>
                  if st = 404 then
                    reconcileCreateMissing name srcNs src env now t
                      [.delete t name, .create t (desiredSecret srcNs src now)]
                  else
                    (⟨[.delete t name, .create t (desiredSecret srcNs src now)],
                      [], 0, 0⟩, false)
              | none =>
                  (⟨[.delete t name, .create t (desiredSecret srcNs src now)],
                    [.secretReconciled t name], 1, 0⟩, false)
        else
          (⟨[], [], 0, 0⟩, false)
      else
        (⟨[], [], 0, 0⟩, false)
  | .apiError st =>
      if st = 404 then reconcileCreateMissing name srcNs src env now t []
      else (⟨[], [], 0, 0⟩, false)

def reconcileLoop (name srcNs : String) (src : Secret) (env : Env) (now : Nat) :
    List String → SyncOutcome
  | [] => ⟨[], [], 0, 0⟩
  | t :: rest =>
      if t = srcNs then reconcileLoop name srcNs src env now rest
      else
        let p := reconcileStep name srcNs src env now t
        if p.2 then p.1
        else p.1.append (reconcileLoop name srcNs src env now rest)

/-- Operation `reconcile_secret` from src/main.py lines 283-389: skip synced bodies;
re-read the source secret and list the namespaces (either raising is caught
by the outer handler, which logs and returns); then run the per-namespace
reconciliation loop. -/
def reconcile_secret (name srcNs : String) (body : Secret) (env : Env)
    (now : Nat) : Except Nat SyncOutcome :=
  if is_synced_secret body then .ok ⟨[], [], 0, 0⟩
  else
    match env.readSecret srcNs name with
    | .apiError _ => .ok ⟨[], [], 0, 0⟩
    | .found src =>
        match env.listNamespaces with
        | none => .ok ⟨[], [], 0, 0⟩
        | some nss => .ok (reconcileLoop name srcNs src env now nss)

/-- The loop of `sync_secrets_in_new_namespace_handler` over the filtered
source secrets (src/main.py lines 273-281): each origin is handed to
`sync_secret` with its own name and namespace; an exception from
`sync_secret` would propagate out of the handler. -/
def nsHandlerLoop (env : Env) (now : Nat) :
    List (String × String × Secret) → Except Nat SyncOutcome
  | [] => .ok ⟨[], [], 0, 0⟩
  | x :: rest =>
      match sync_secret x.1 x.2.1 x.2.2 env now with
      | .error e => .error e
      | .ok o =>
          match nsHandlerLoop env now rest with
          | .error e => .error e
          | .ok o2 => .ok (o.append o2)

/-- Handler `sync_secrets_in_new_namespace_handler` from src/main.py lines 255-281:
list all origin-labelled secrets cluster-wide (`none` models a raising
list, which is logged and swallowed), drop the synced copies, and call
`sync_secret` for each remaining origin.  The newly created namespace's
name is only logged: it does not influence the computation. -/
def sync_secrets_in_new_namespace_handler (new_namespace : String)
    (listSecrets : Option (List (String × String × Secret))) (env : Env)
    (now : Nat) : Except Nat SyncOutcome :=
  match listSecrets with
  | none => .ok ⟨[], [], 0, 0⟩
  | some secrets =>
      nsHandlerLoop env now (secrets.filter fun x => !is_synced_secret x.2.2)

/-- The writes of a run that returned normally (a raising run issues none
beyond those already recorded; the source's top-level functions never
raise). -/
def actionsOf : Except Nat SyncOutcome → List Action
  | .ok o => o.actions
  | .error _ => []

def gcActionsOf : Except Nat GcOutcome → List Action
  | .ok o => o.actions
  | .error _ => []

/-- The namespace a write is directed at. -/
def writeTarget : Action → String
  | .delete ns _ => ns
  | .create ns _ => ns

/-- The read immediately preceding a write against `(t, name)` justified
the write: it found nothing (404) or found a secret with the replica
annotation. -/
def readAllowsWrite (env : Env) (name t : String) : Prop :=
  env.readSecret t name = .apiError 404 ∨
  ∃ s, env.readSecret t name = .found s ∧ is_synced_secret s = true

/-! ### Concrete cluster states used to evaluate the operations -/

/-- An origin secret: opt-in label, no replica annotations. -/
def origin0 : Secret :=
  ⟨[("k", "dg==")], "Opaque", [(SYNC_LABEL, "sync")], none⟩

/-- A replica of `origin0` in a target namespace whose `data` is stale but
whose `type` equals the origin's. -/
def staleReplica : Secret :=
  ⟨[("k", "old")], "Opaque", [(SYNC_LABEL, "synced")],
   some [(SYNC_SOURCE_ANNOT, "ns-a")]⟩

/-- A replica of `origin0` whose `data` and `type` both already equal the
origin's, written at time 0. -/
def freshReplica : Secret :=
  ⟨[("k", "dg==")], "Opaque", [(SYNC_LABEL, "synced")],
   some [(SYNC_SOURCE_ANNOT, "ns-a"), (SYNC_TIMESTAMP_ANNOT, "0")]⟩

/-- A user secret carrying the replica-marker label but no annotations at
all. -/
def labelledUnmanaged : Secret :=
  ⟨[("k", "bWFu")], "Opaque", [(SYNC_LABEL, "synced")], none⟩

/-- Two namespaces; the target already holds `staleReplica`. -/
def envStale : Env :=
  ⟨some ["ns-a", "ns-b"], [(("ns-b", "s1"), .found staleReplica)], [], []⟩

/-- Two namespaces; the target already holds `freshReplica`. -/
def envFresh : Env :=
  ⟨some ["ns-a", "ns-b"], [(("ns-b", "s1"), .found freshReplica)], [], []⟩

/-- Three namespaces, no existing secrets anywhere. -/
def envEmpty3 : Env :=
  ⟨some ["ns-a", "ns-b", "ns-new"], [], [], []⟩

/-- Two namespaces, no existing secret in the target, but the create in
the target fails with a 409 conflict. -/
def envConflict : Env :=
  ⟨some ["ns-a", "ns-b"], [], [(("ns-b", "s1"), 409)], []⟩

/-- Listing the namespaces raises an ApiException. -/
def envListFail : Env := ⟨none, [], [], []⟩

/-- Two namespaces; the target holds `labelledUnmanaged`. -/
def envUnmanaged : Env :=
  ⟨some ["ns-a", "ns-b"], [(("ns-b", "s1"), .found labelledUnmanaged)], [], []⟩

/-- A secret with the marker label and even a synced-at annotation, but no
source-namespace annotation. -/
def markedNoSource : Secret :=
  ⟨[], "Opaque", [(SYNC_LABEL, "synced")], some [(SYNC_TIMESTAMP_ANNOT, "5")]⟩

/-! ### Helper lemmas -/

theorem sync_append_actions (a b : SyncOutcome) :
    (a.append b).actions = a.actions ++ b.actions := rfl

theorem gc_append_actions (a b : GcOutcome) :
    (a.append b).actions = a.actions ++ b.actions := rfl

/-- Every write issued by one fan-out step targets that step's namespace,
is the delete or the create of the desired replica, and was preceded by a
justifying read. -/
theorem syncStep_spec (name srcNs : String) (data : Secret) (env : Env)
    (now : Nat) (t : String) (a : Action)
    (ha : a ∈ (syncStep name srcNs data env now t).actions) :
    (a = Action.delete t name ∨
      a = Action.create t (desiredSecret srcNs data now)) ∧
      readAllowsWrite env name t := by
  unfold syncStep createBlock at ha
  rcases hread : env.readSecret t name with s | st <;> simp only [hread] at ha
  · rcases hs : is_synced_secret s <;> simp [hs] at ha
    have hallow : readAllowsWrite env name t := Or.inr ⟨s, hread, hs⟩
    rcases hd : env.deleteSecret t name with _ | st2 <;> simp [hd] at ha
    · rcases hc : env.createSecret t name with _ | st3 <;> simp [hc] at ha <;>
        rcases ha with rfl | rfl <;> simp [hallow]
    · by_cases h404 : st2 = 404 <;> simp [h404] at ha
      · rcases hc : env.createSecret t name with _ | st3 <;> simp [hc] at ha <;>
          rcases ha with rfl | rfl <;> simp [hallow]
      · subst ha
        simp [hallow]
  · by_cases h404 : st = 404 <;> simp [h404] at ha
    subst h404
    have hallow : readAllowsWrite env name t := Or.inl hread
    rcases hc : env.createSecret t name with _ | st3 <;> simp [hc] at ha <;>
      subst ha <;> simp [hallow]

/-- Every write issued by one garbage-collection step is the delete of the
origin's name in that step's namespace, and the preceding read found a
secret with the replica annotation. -/
theorem gcStep_spec (name : String) (env : Env) (t : String) (a : Action)
    (ha : a ∈ (gcStep name env t).actions) :
    a = Action.delete t name ∧
      ∃ s, env.readSecret t name = .found s ∧ is_synced_secret s = true := by
  unfold gcStep at ha
  rcases hread : env.readSecret t name with s | st <;> simp only [hread] at ha
  · rcases hs : is_synced_secret s <;> simp [hs] at ha
    rcases hd : env.deleteSecret t name with _ | st2 <;> simp [hd] at ha <;>
      exact ⟨ha, s, by simp [hread], hs⟩
  · simp at ha


/-- Conversely, a garbage-collection step whose read found a replica always
issues the delete. -/
theorem gcStep_delete_mem (name : String) (env : Env) (t : String) (s : Secret)
    (hread : env.readSecret t name = .found s)
    (hs : is_synced_secret s = true) :
    Action.delete t name ∈ (gcStep name env t).actions := by
  unfold gcStep
  rcases hd : env.deleteSecret t name <;> simp [hread, hs, hd]

/-- Every write issued by one reconciliation step targets that step's
namespace, is the delete or the create of the desired replica, and was
preceded by a justifying read. -/
theorem reconcileStep_spec (name srcNs : String) (src : Secret) (env : Env)
    (now : Nat) (t : String) (a : Action)
    (ha : a ∈ (reconcileStep name srcNs src env now t).1.actions) :
    (a = Action.delete t name ∨
      a = Action.create t (desiredSecret srcNs src now)) ∧
      readAllowsWrite env name t := by
  unfold reconcileStep reconcileCreateMissing at ha
  rcases hread : env.readSecret t name with s | st <;> simp only [hread] at ha
  · rcases hs : is_synced_secret s <;> simp [hs] at ha
    have hallow : readAllowsWrite env name t := Or.inr ⟨s, hread, hs⟩
    by_cases hdiff : s.data ≠ src.data ∨ s.type ≠ src.type <;> simp [hdiff] at ha
    rcases hd : env.deleteSecret t name with _ | st2 <;> simp [hd] at ha
    · rcases hc : env.createSecret t name with _ | st3 <;> simp [hc] at ha
      · rcases ha with rfl | rfl <;> simp [hallow]
      · by_cases h404 : st3 = 404 <;> simp [h404] at ha <;>
          rcases ha with rfl | rfl <;> simp [hallow]
    · by_cases h404 : st2 = 404 <;> simp [h404] at ha
      · rcases hc : env.createSecret t name with _ | st3 <;> simp [hc] at ha <;>
          rcases ha with rfl | rfl <;> simp [hallow]
      · subst ha
        simp [hallow]
  · by_cases h404 : st = 404 <;> simp [h404] at ha
    subst h404
    have hallow : readAllowsWrite env name t := Or.inl hread
    rcases hc : env.createSecret t name with _ | st3 <;> simp [hc] at ha <;>
      subst ha <;> simp [hallow]

/-- Every write of a fan-out run comes from the step of some listed target
namespace distinct from the origin's. -/
theorem syncLoop_spec (name srcNs : String) (data : Secret) (env : Env)
    (now : Nat) :
    ∀ (l : List String) (a : Action),
      a ∈ (syncLoop name srcNs data env now l).actions →
      ∃ t, t ∈ l ∧ t ≠ srcNs ∧ a ∈ (syncStep name srcNs data env now t).actions := by
  intro l
  induction l with
  | nil => intro a ha; simp [syncLoop] at ha
  | cons t rest ih =>
      intro a ha
      by_cases h : t = srcNs <;>
        simp [syncLoop, h, sync_append_actions] at ha
      · obtain ⟨u, hu, hne, hm⟩ := ih a ha
        exact ⟨u, by simp [hu], hne, hm⟩
      · rcases ha with ha | ha
        · exact ⟨t, by simp, h, ha⟩
        · obtain ⟨u, hu, hne, hm⟩ := ih a ha
          exact ⟨u, by simp [hu], hne, hm⟩

/-- Every write of a garbage-collection run comes from the step of some
listed target namespace distinct from the origin's. -/
theorem gcLoop_spec (name srcNs : String) (env : Env) :
    ∀ (l : List String) (a : Action),
      a ∈ (gcLoop name srcNs env l).actions →
      ∃ t, t ∈ l ∧ t ≠ srcNs ∧ a ∈ (gcStep name env t).actions := by
  intro l
  induction l with
  | nil => intro a ha; simp [gcLoop] at ha
  | cons t rest ih =>
      intro a ha
      by_cases h : t = srcNs <;>
        simp [gcLoop, h, gc_append_actions] at ha
      · obtain ⟨u, hu, hne, hm⟩ := ih a ha
        exact ⟨u, by simp [hu], hne, hm⟩
      · rcases ha with ha | ha
        · exact ⟨t, by simp, h, ha⟩
        · obtain ⟨u, hu, hne, hm⟩ := ih a ha
          exact ⟨u, by simp [hu], hne, hm⟩

/-- A step's writes survive into the whole garbage-collection run. -/
theorem gcLoop_mem (name srcNs : String) (env : Env) :
    ∀ (l : List String) (t : String), t ∈ l → t ≠ srcNs →
      ∀ a, a ∈ (gcStep name env t).actions →
        a ∈ (gcLoop name srcNs env l).actions := by
  intro l
  induction l with
  | nil => intro t ht; simp at ht
  | cons u rest ih =>
      intro t ht hne a hm
      rcases List.mem_cons.mp ht with rfl | ht2
      · simp [gcLoop, hne, gc_append_actions]
        exact Or.inl hm
      · by_cases h : u = srcNs <;>
          simp [gcLoop, h, gc_append_actions]
        · exact ih t ht2 hne a hm
        · exact Or.inr (ih t ht2 hne a hm)

/-- Every write of a reconciliation run comes from the step of some listed
target namespace distinct from the origin's. -/
theorem reconcileLoop_spec (name srcNs : String) (src : Secret) (env : Env)
    (now : Nat) :
    ∀ (l : List String) (a : Action),
      a ∈ (reconcileLoop name srcNs src env now l).actions →
      ∃ t, t ∈ l ∧ t ≠ srcNs ∧
        a ∈ (reconcileStep name srcNs src env now t).1.actions := by
  intro l
  induction l with
  | nil => intro a ha; simp [reconcileLoop] at ha
  | cons t rest ih =>
      intro a ha
      by_cases h : t = srcNs
      · simp [reconcileLoop, h] at ha
        obtain ⟨u, hu, hne, hm⟩ := ih a ha
        exact ⟨u, by simp [hu], hne, hm⟩
      · simp only [reconcileLoop, if_neg h] at ha
        by_cases hab : (reconcileStep name srcNs src env now t).2 = true <;>
          simp [hab, sync_append_actions] at ha
        · exact ⟨t, by simp, h, ha⟩
        · rcases ha with ha | ha
          · exact ⟨t, by simp, h, ha⟩
          · obtain ⟨u, hu, hne, hm⟩ := ih a ha
            exact ⟨u, by simp [hu], hne, hm⟩

theorem SyncOutcome.append_empty (o : SyncOutcome) :
    o.append ⟨[], [], 0, 0⟩ = o := by
  cases o
  simp [SyncOutcome.append]

/-- Every write of a whole `sync_secret` run was preceded by a justifying
read of its target namespace. -/
theorem sync_writes_allowed (env : Env) (name srcNs : String) (data : Secret)
    (now : Nat) (a : Action)
    (ha : a ∈ actionsOf (sync_secret name srcNs data env now)) :
    readAllowsWrite env name (writeTarget a) := by
  unfold sync_secret actionsOf at ha
  rcases hn : env.listNamespaces with _ | nss <;> simp [hn] at ha
  obtain ⟨t, _, _, hm⟩ := syncLoop_spec name srcNs data env now nss a ha
  obtain ⟨hae, hallow⟩ := syncStep_spec name srcNs data env now t a hm
  rcases hae with rfl | rfl <;> exact hallow

/-- Every write of a whole `delete_synced_secrets` run was preceded by a
justifying read of its target namespace. -/
theorem gc_writes_allowed (env : Env) (name srcNs : String) (a : Action)
    (ha : a ∈ gcActionsOf (delete_synced_secrets name srcNs env)) :
    readAllowsWrite env name (writeTarget a) := by
  unfold delete_synced_secrets gcActionsOf at ha
  rcases hn : env.listNamespaces with _ | nss <;> simp [hn] at ha
  obtain ⟨t, _, _, hm⟩ := gcLoop_spec name srcNs env nss a ha
  obtain ⟨rfl, s, hr, hs⟩ := gcStep_spec name env t a hm
  exact Or.inr ⟨s, hr, hs⟩

/-- Every write of a whole `reconcile_secret` run was preceded by a
justifying read of its target namespace. -/
theorem reconcile_writes_allowed (env : Env) (name srcNs : String)
    (body : Secret) (now : Nat) (a : Action)
    (ha : a ∈ actionsOf (reconcile_secret name srcNs body env now)) :
    readAllowsWrite env name (writeTarget a) := by
  unfold reconcile_secret actionsOf at ha
  rcases hb : is_synced_secret body <;> simp [hb] at ha
  rcases hsrc : env.readSecret srcNs name with src | st <;> simp [hsrc] at ha
  rcases hn : env.listNamespaces with _ | nss <;> simp [hn] at ha
  obtain ⟨t, _, _, hm⟩ := reconcileLoop_spec name srcNs src env now nss a ha
  obtain ⟨hae, hallow⟩ := reconcileStep_spec name srcNs src env now t a hm
  rcases hae with rfl | rfl <;> exact hallow

/-- A reconciliation step that found a replica already agreeing with the
source in `data` and `type` does nothing at all. -/
theorem reconcileStep_equal_noop (name srcNs : String) (src s : Secret)
    (env : Env) (now : Nat) (t : String)
    (hread : env.readSecret t name = .found s)
    (hs : is_synced_secret s = true)
    (hd : s.data = src.data) (hty : s.type = src.type) :
    reconcileStep name srcNs src env now t = (⟨[], [], 0, 0⟩, false) := by
  unfold reconcileStep
  simp [hread, hs, hd, hty]

/-- A fan-out step that found a replica always issues its delete, whatever
the replica's payload. -/
theorem syncStep_replica_deletes (name srcNs : String) (data s : Secret)
    (env : Env) (now : Nat) (t : String)
    (hread : env.readSecret t name = .found s)
    (hs : is_synced_secret s = true) :
    Action.delete t name ∈ (syncStep name srcNs data env now t).actions := by
  unfold syncStep createBlock
  rcases hd : env.deleteSecret t name with _ | st2
  · rcases hc : env.createSecret t name <;> simp [hread, hs, hd, hc]
  · by_cases h404 : st2 = 404 <;> rcases hc : env.createSecret t name <;>
      simp [hread, hs, hd, hc, h404]

/-- A fan-out step that found a replica and whose delete goes through
issues exactly the delete followed by the recreate. -/
theorem syncStep_replica_delete_create (name srcNs : String) (data s : Secret)
    (env : Env) (now : Nat) (t : String)
    (hread : env.readSecret t name = .found s)
    (hs : is_synced_secret s = true)
    (hdel : env.deleteSecret t name = none) :
    (syncStep name srcNs data env now t).actions =
      [Action.delete t name, Action.create t (desiredSecret srcNs data now)] := by
  unfold syncStep createBlock
  rcases hc : env.createSecret t name <;> simp [hread, hs, hdel, hc]

/-! ### Claim theorems -/

/-- Claim C1: for every operation — event-driven fan-out (`sync_secret`),
garbage collection (`delete_synced_secrets`) and periodic reconciliation
(`reconcile_secret`) — and every target namespace, a write (create, update
or delete) is issued only if the read immediately preceding it found no
secret (404) or found a secret for which `is_synced_secret` was true; a
secret for which it is false is never written to and never deleted. -/
theorem C1_writes_only_absent_or_replica (env : Env) (name srcNs : String)
    (data body : Secret) (now : Nat) (a : Action) :
    (a ∈ actionsOf (sync_secret name srcNs data env now) →
      readAllowsWrite env name (writeTarget a)) ∧
    (a ∈ gcActionsOf (delete_synced_secrets name srcNs env) →
      readAllowsWrite env name (writeTarget a)) ∧
    (a ∈ actionsOf (reconcile_secret name srcNs body env now) →
      readAllowsWrite env name (writeTarget a)) :=
  ⟨sync_writes_allowed env name srcNs data now a,
   gc_writes_allowed env name srcNs a,
   reconcile_writes_allowed env name srcNs body now a⟩

/-- Witness for C1: in `envStale` the fan-out issues the delete of the
stale replica, and the preceding read justified that write. -/
theorem C1_witness :
    Action.delete "ns-b" "s1" ∈
      actionsOf (sync_secret "s1" "ns-a" origin0 envStale 0) ∧
    readAllowsWrite envStale "s1" (writeTarget (Action.delete "ns-b" "s1")) :=
  ⟨by decide,
   (C1_writes_only_absent_or_replica envStale "s1" "ns-a" origin0 origin0 0
      (Action.delete "ns-b" "s1")).1 (by decide)⟩

/-- Claim C2: `is_synced_secret` is true exactly when the source-namespace
annotation key is present among the secret's annotations; in particular a
secret carrying the marker label value "synced" but lacking that annotation
is not a replica. -/
theorem C2_isReplica_iff_annot_key_present :
    (∀ s : Secret, is_synced_secret s = true ↔
      SYNC_SOURCE_ANNOT ∈ (s.annotations.getD []).map Prod.fst) ∧
    (∀ s : Secret, s.labels.lookup SYNC_LABEL = some "synced" →
      SYNC_SOURCE_ANNOT ∉ (s.annotations.getD []).map Prod.fst →
      is_synced_secret s = false) := by
  have key : ∀ (l : List (String × String)) (k : String),
      (l.lookup k).isSome = true ↔ k ∈ l.map Prod.fst := by
    intro l k
    induction l with
    | nil => simp [List.lookup]
    | cons p rest ih =>
        cases p with
        | mk a b =>
            rcases eq_or_ne k a with rfl | h
            · simp [List.lookup]
            · have hbeq : (k == a) = false := by simp [h]
              simp only [List.lookup, hbeq, List.map_cons, List.mem_cons]
              rw [ih]
              simp [h]
  constructor
  · intro s
    unfold is_synced_secret
    exact key _ _
  · intro s _ hno
    unfold is_synced_secret
    rw [Bool.eq_false_iff]
    intro htrue
    exact hno ((key _ _).mp htrue)

/-- Witness for C2: a secret with the marker label and a synced-at
annotation but no source-namespace annotation is not a replica. -/
theorem C2_witness : is_synced_secret markedNoSource = false :=
  C2_isReplica_iff_annot_key_present.2 markedNoSource (by decide) (by decide)

/-- Claim C3: every replica written by the fan-out has the origin's `data`
and `type`, exactly the single marker label entry, and exactly the two
annotations source-namespace (origin namespace) and synced-at (current
unix-seconds as a string); likewise for replicas written by the periodic
reconciliation, with respect to the freshly read source secret. -/
theorem C3_written_replica_shape (env : Env) (name srcNs : String)
    (data body src : Secret) (now : Nat) (t : String) (w : Secret) :
    (Action.create t w ∈ actionsOf (sync_secret name srcNs data env now) →
      w.data = data.data ∧ w.type = data.type ∧
      w.labels = [(SYNC_LABEL, "synced")] ∧
      w.annotations = some [(SYNC_SOURCE_ANNOT, srcNs),
        (SYNC_TIMESTAMP_ANNOT, toString now)]) ∧
    (env.readSecret srcNs name = .found src →
      Action.create t w ∈ actionsOf (reconcile_secret name srcNs body env now) →
      w.data = src.data ∧ w.type = src.type ∧
      w.labels = [(SYNC_LABEL, "synced")] ∧
      w.annotations = some [(SYNC_SOURCE_ANNOT, srcNs),
        (SYNC_TIMESTAMP_ANNOT, toString now)]) := by
  constructor
  · intro ha
    unfold sync_secret actionsOf at ha
    rcases hn : env.listNamespaces with _ | nss <;> simp [hn] at ha
    obtain ⟨u, _, _, hm⟩ := syncLoop_spec name srcNs data env now nss _ ha
    obtain ⟨hae, _⟩ := syncStep_spec name srcNs data env now u _ hm
    rcases hae with hae | hae
    · cases hae
    · injection hae with h1 h2
      subst h2
      exact ⟨rfl, rfl, rfl, rfl⟩
  · intro hsrc ha
    unfold reconcile_secret actionsOf at ha
    rcases hb : is_synced_secret body <;> simp [hb] at ha
    rw [hsrc] at ha
    rcases hn : env.listNamespaces with _ | nss <;> simp [hn] at ha
    obtain ⟨u, _, _, hm⟩ := reconcileLoop_spec name srcNs src env now nss _ ha
    obtain ⟨hae, _⟩ := reconcileStep_spec name srcNs src env now u _ hm
    rcases hae with hae | hae
    · cases hae
    · injection hae with h1 h2
      subst h2
      exact ⟨rfl, rfl, rfl, rfl⟩

/-- Witness for C3: the replica created in `envStale` carries exactly the
prescribed payload and metadata. -/
theorem C3_witness :
    (desiredSecret "ns-a" origin0 0).data = origin0.data ∧
    (desiredSecret "ns-a" origin0 0).type = origin0.type ∧
    (desiredSecret "ns-a" origin0 0).labels = [(SYNC_LABEL, "synced")] ∧
    (desiredSecret "ns-a" origin0 0).annotations =
      some [(SYNC_SOURCE_ANNOT, "ns-a"), (SYNC_TIMESTAMP_ANNOT, toString 0)] :=
  (C3_written_replica_shape envStale "s1" "ns-a" origin0 origin0 origin0 0
    "ns-b" (desiredSecret "ns-a" origin0 0)).1 (by decide)

/-- Claim C4: the garbage collector deletes the secret named after the
origin in exactly those listed namespaces, other than the origin's, where
its read found a secret with the replica annotation; everything it ever
issues is such a delete, so absent secrets and unmanaged secrets are left
untouched. -/
theorem C4_gc_deletes_exactly_replicas (env : Env) (name srcNs : String)
    (nss : List String) (hn : env.listNamespaces = some nss) (t : String) :
    (Action.delete t name ∈ gcActionsOf (delete_synced_secrets name srcNs env) ↔
      t ∈ nss ∧ t ≠ srcNs ∧
        ∃ s, env.readSecret t name = .found s ∧ is_synced_secret s = true) ∧
    (∀ a ∈ gcActionsOf (delete_synced_secrets name srcNs env),
      ∃ u, a = Action.delete u name) := by
  have hrun : gcActionsOf (delete_synced_secrets name srcNs env) =
      (gcLoop name srcNs env nss).actions := by
    simp [delete_synced_secrets, gcActionsOf, hn]
  rw [hrun]
  constructor
  · constructor
    · intro hmem
      obtain ⟨u, hu, hne, hstep⟩ := gcLoop_spec name srcNs env nss _ hmem
      obtain ⟨heq, s, hr, hs⟩ := gcStep_spec name env u _ hstep
      injection heq with h1 h2
      subst h1
      exact ⟨hu, hne, s, hr, hs⟩
    · rintro ⟨ht, hne, s, hr, hs⟩
      exact gcLoop_mem name srcNs env nss t ht hne _
        (gcStep_delete_mem name env t s hr hs)
  · intro a ha
    obtain ⟨u, _, _, hstep⟩ := gcLoop_spec name srcNs env nss a ha
    obtain ⟨heq, _⟩ := gcStep_spec name env u a hstep
    exact ⟨u, heq⟩

/-- Witness for C4: in `envStale` the garbage collector deletes the replica
in the second namespace. -/
theorem C4_witness :
    Action.delete "ns-b" "s1" ∈
      gcActionsOf (delete_synced_secrets "s1" "ns-a" envStale) :=
  (C4_gc_deletes_exactly_replicas envStale "s1" "ns-a" ["ns-a", "ns-b"] rfl
    "ns-b").1.mpr ⟨by decide, by decide, staleReplica, by decide, by decide⟩

/-- Counterexample to claim C5 as stated: in `envStale` the existing
replica's type equals the origin's, yet the fan-out still deletes it and
recreates it — the update is not an in-place patch and there is an
intermediate state with no secret; delete-then-recreate is not reserved for
type changes. -/
theorem C5_counterexample :
    staleReplica.type = origin0.type ∧
    actionsOf (sync_secret "s1" "ns-a" origin0 envStale 0) =
      [Action.delete "ns-b" "s1",
       Action.create "ns-b" (desiredSecret "ns-a" origin0 0)] :=
  ⟨rfl, by decide⟩

/-- Claim C5 (amended): whenever the fan-out finds an existing replica in a
target namespace, it updates by delete-then-recreate regardless of whether
the types match; no patch is ever issued. -/
theorem C5_amended_update_is_delete_then_create (env : Env)
    (name srcNs : String) (data s : Secret) (now : Nat) (t : String)
    (hread : env.readSecret t name = .found s)
    (hs : is_synced_secret s = true)
    (hdel : env.deleteSecret t name = none) :
    (syncStep name srcNs data env now t).actions =
      [Action.delete t name, Action.create t (desiredSecret srcNs data now)] :=
  syncStep_replica_delete_create name srcNs data s env now t hread hs hdel

/-- Witness for the amended C5 at `envFresh`: the same-typed, identical
replica is still deleted and recreated by the fan-out step. -/
theorem C5_witness :
    (syncStep "s1" "ns-a" origin0 envFresh 3 "ns-b").actions =
      [Action.delete "ns-b" "s1",
       Action.create "ns-b" (desiredSecret "ns-a" origin0 3)] :=
  C5_amended_update_is_delete_then_create envFresh "s1" "ns-a" origin0
    freshReplica 3 "ns-b" (by decide) (by decide) (by decide)

/-- Counterexample to claim C6 as stated: in `envFresh` the target's
replica equals the origin in both `data` and `type`, yet the event-driven
fan-out still issues a delete and a recreate, and the recreated secret's
annotations differ from the old ones (synced-at is refreshed although
nothing changed). -/
theorem C6_counterexample :
    freshReplica.data = origin0.data ∧ freshReplica.type = origin0.type ∧
    is_synced_secret freshReplica = true ∧
    actionsOf (sync_secret "s1" "ns-a" origin0 envFresh 7) =
      [Action.delete "ns-b" "s1",
       Action.create "ns-b" (desiredSecret "ns-a" origin0 7)] ∧
    (desiredSecret "ns-a" origin0 7).annotations ≠ freshReplica.annotations :=
  by decide

/-- Claim C6 (amended): only the periodic reconciliation leaves an
up-to-date replica (equal `data` and `type`) untouched, issuing no write
and keeping synced-at; the event-driven fan-out instead deletes and
recreates it unconditionally, refreshing synced-at. -/
theorem C6_amended_only_reconcile_skips_equal (env : Env)
    (name srcNs : String) (src s : Secret) (now : Nat) (t : String)
    (hread : env.readSecret t name = .found s)
    (hs : is_synced_secret s = true) :
    (s.data = src.data → s.type = src.type →
      reconcileStep name srcNs src env now t = (⟨[], [], 0, 0⟩, false)) ∧
    Action.delete t name ∈ (syncStep name srcNs src env now t).actions :=
  ⟨fun hd hty => reconcileStep_equal_noop name srcNs src s env now t hread hs hd hty,
   syncStep_replica_deletes name srcNs src s env now t hread hs⟩

/-- Witness for the amended C6 at `envFresh`: the reconciliation step does
nothing, while the fan-out step still deletes. -/
theorem C6_witness :
    reconcileStep "s1" "ns-a" freshReplica envFresh 7 "ns-b" =
      (⟨[], [], 0, 0⟩, false) ∧
    Action.delete "ns-b" "s1" ∈
      (syncStep "s1" "ns-a" freshReplica envFresh 7 "ns-b").actions :=
  ⟨(C6_amended_only_reconcile_skips_equal envFresh "s1" "ns-a" freshReplica
      freshReplica 7 "ns-b" (by decide) (by decide)).1 rfl rfl,
   (C6_amended_only_reconcile_skips_equal envFresh "s1" "ns-a" freshReplica
      freshReplica 7 "ns-b" (by decide) (by decide)).2⟩

/-- Counterexample to claim C7 as stated: when namespace "ns-new" is
created in `envEmpty3`, the handler also writes the origin's secret into
"ns-b", a namespace other than the newly created one. -/
theorem C7_counterexample :
    Action.create "ns-b" (desiredSecret "ns-a" origin0 0) ∈
      actionsOf (sync_secrets_in_new_namespace_handler "ns-new"
        (some [("s1", "ns-a", origin0)]) envEmpty3 0) := by decide

/-- Claim C7 (amended): the namespace-creation handler ignores which
namespace is new — its result does not depend on that argument — and for
each listed non-replica origin it runs the full fan-out `sync_secret`,
which lists all namespaces and writes to every namespace other than the
origin's. -/
theorem C7_amended_handler_runs_full_fanout :
    (∀ (n1 n2 : String) (ls : Option (List (String × String × Secret)))
        (env : Env) (now : Nat),
      sync_secrets_in_new_namespace_handler n1 ls env now =
        sync_secrets_in_new_namespace_handler n2 ls env now) ∧
    (∀ (new_ns name srcNs : String) (body : Secret) (env : Env) (now : Nat),
      is_synced_secret body = false →
      sync_secrets_in_new_namespace_handler new_ns
          (some [(name, srcNs, body)]) env now =
        sync_secret name srcNs body env now) := by
  constructor
  · intro n1 n2 ls env now
    rfl
  · intro new_ns name srcNs body env now hb
    unfold sync_secrets_in_new_namespace_handler nsHandlerLoop
    simp only [List.filter, hb, Bool.not_false]
    rcases hn : env.listNamespaces with _ | nss <;>
      simp [sync_secret, hn, nsHandlerLoop, SyncOutcome.append_empty]

/-- Witness for the amended C7: with a single origin in `envEmpty3` the
handler's run coincides with the origin's full fan-out. -/
theorem C7_witness :
    sync_secrets_in_new_namespace_handler "ns-new"
        (some [("s1", "ns-a", origin0)]) envEmpty3 0 =
      sync_secret "s1" "ns-a" origin0 envEmpty3 0 :=
  C7_amended_handler_runs_full_fanout.2 "ns-new" "s1" "ns-a" origin0
    envEmpty3 0 (by decide)

/-- Counterexample to claim C8 as stated: in `envConflict` the create in
"ns-b" fails with a 409 conflict, and the fan-out counts it as a failure
(`fail_count = 1`) and emits a `SyncFailed` warning event for that
target. -/
theorem C8_counterexample :
    sync_secret "s1" "ns-a" origin0 envConflict 0 =
      .ok ⟨[Action.create "ns-b" (desiredSecret "ns-a" origin0 0)],
           [Event.syncFailed "ns-b" "s1"], 0, 1⟩ := rfl

/-- Claim C8 (amended): a 409 conflict on create is handled like any other
create error: nothing is raised (the run still returns normally), but the
conflict is counted in `fail_count` and a `SyncFailed` warning event is
emitted for that target. -/
theorem C8_amended_conflict_is_counted_failure (env : Env)
    (name srcNs : String) (data : Secret) (now : Nat) (t : String)
    (hread : env.readSecret t name = .apiError 404)
    (hc : env.createSecret t name = some 409) :
    syncStep name srcNs data env now t =
      ⟨[Action.create t (desiredSecret srcNs data now)],
       [Event.syncFailed t name], 0, 1⟩ ∧
    ∃ o, sync_secret name srcNs data env now = Except.ok o := by
  constructor
  · unfold syncStep createBlock
    simp [hread, hc]
  · rcases hn : env.listNamespaces with _ | nss <;> simp [sync_secret, hn]

/-- Witness for the amended C8 at `envConflict`. -/
theorem C8_witness :
    syncStep "s1" "ns-a" origin0 envConflict 0 "ns-b" =
      ⟨[Action.create "ns-b" (desiredSecret "ns-a" origin0 0)],
       [Event.syncFailed "ns-b" "s1"], 0, 1⟩ ∧
    ∃ o, sync_secret "s1" "ns-a" origin0 envConflict 0 = Except.ok o :=
  C8_amended_conflict_is_counted_failure envConflict "s1" "ns-a" origin0 0
    "ns-b" (by decide) (by decide)

/-- Counterexample to claim C9 as stated: when listing the namespaces
fails, both the fan-out and the garbage collection return normally
(`Except.ok`, with empty traces) — no retryable error reaches the calling
framework, so the triggering event is not redelivered. -/
theorem C9_counterexample :
    sync_secret "s1" "ns-a" origin0 envListFail 0 =
      Except.ok ⟨[], [], 0, 0⟩ ∧
    delete_synced_secrets "s1" "ns-a" envListFail =
      Except.ok ⟨[], [], 0⟩ :=
  ⟨rfl, rfl⟩

/-- Claim C9 (amended): if listing the cluster's namespaces fails, the
fan-out and the garbage collection abort before issuing any write against
any namespace; however the failure is only logged — both functions return
normally, raising nothing to the framework, so the event is not
redelivered. -/
theorem C9_amended_list_failure_aborts_silently (env : Env)
    (name srcNs : String) (data : Secret) (now : Nat)
    (hn : env.listNamespaces = none) :
    sync_secret name srcNs data env now = Except.ok ⟨[], [], 0, 0⟩ ∧
    delete_synced_secrets name srcNs env = Except.ok ⟨[], [], 0⟩ := by
  constructor <;> simp [sync_secret, delete_synced_secrets, hn]

/-- Witness for the amended C9 at `envListFail`. -/
theorem C9_witness :
    sync_secret "s2" "ns-x" origin0 envListFail 1 =
      Except.ok ⟨[], [], 0, 0⟩ ∧
    delete_synced_secrets "s2" "ns-x" envListFail =
      Except.ok ⟨[], [], 0⟩ :=
  C9_amended_list_failure_aborts_silently envListFail "s2" "ns-x" origin0 1 rfl

/-- Claim C10: a secret whose metadata carries no annotations mapping at
all is classified by `is_synced_secret` as not a replica (the absent
mapping is read as empty, without failing), and consequently no operation
ever writes to or deletes it in its namespace. -/
theorem C10_missing_annotations_secret_safe (env : Env)
    (name srcNs : String) (data body : Secret) (now : Nat) (t : String)
    (s : Secret) (hread : env.readSecret t name = .found s)
    (hann : s.annotations = none) :
    is_synced_secret s = false ∧
    (∀ a ∈ actionsOf (sync_secret name srcNs data env now),
      writeTarget a ≠ t) ∧
    (∀ a ∈ gcActionsOf (delete_synced_secrets name srcNs env),
      writeTarget a ≠ t) ∧
    (∀ a ∈ actionsOf (reconcile_secret name srcNs body env now),
      writeTarget a ≠ t) := by
  have hfalse : is_synced_secret s = false := by
    simp [is_synced_secret, hann]
  have hnot : ¬ readAllowsWrite env name t := by
    rintro (h404 | ⟨s2, hr2, hs2⟩)
    · rw [hread] at h404
      cases h404
    · rw [hread] at hr2
      injection hr2 with h
      subst h
      rw [hfalse] at hs2
      cases hs2
  refine ⟨hfalse, ?_, ?_, ?_⟩ <;> intro a ha heq
  · exact hnot (heq ▸ sync_writes_allowed env name srcNs data now a ha)
  · exact hnot (heq ▸ gc_writes_allowed env name srcNs a ha)
  · exact hnot (heq ▸ reconcile_writes_allowed env name srcNs body now a ha)

/-- Witness for C10 at `envUnmanaged`: the labelled secret without any
annotations mapping is not a replica. -/
theorem C10_witness : is_synced_secret labelledUnmanaged = false :=
  (C10_missing_annotations_secret_safe envUnmanaged "s1" "ns-a" origin0
    origin0 0 "ns-b" labelledUnmanaged (by decide) rfl).1

end KSS
